import Mathlib

/-!
# Free dictionary widget: rendering and lookup

A shallow embedding of `src/custom-elements.js`, `src/dictionaryManager.js` and
`src/script.js`.

* JavaScript strings are `String`; template literals are concatenations of their
  literal pieces and their interpolated values.
* `for (const x of xs)` over an array is a left fold over the list.
* Objects of the data model are structures.  A `Definition` also carries the
  identity of its object, because `Array.prototype.indexOf` compares objects
  with `===`, that is by identity and not by content.
* Code that may throw returns a `Run`: the state reached and the exception, if
  any, that left it.
-/

set_option maxRecDepth 100000

namespace FreeDictionary

/-! ## Data model (the typedefs of `custom-elements.js`) -/

/-- A phonetic transcription; `audio` is the optional property. -/
structure PhoneticEntry where
  text : String
  audio : Option String
deriving DecidableEq, Repr

/-- A definition object.  `ident` is the identity of the object: two values with
the same `ident` stand for one and the same object, two values with different
`ident` for two objects (whose contents may well be equal). -/
structure Definition where
  ident : Nat
  definition : String
  usageExample : Option String
  synonyms : List String
  antonyms : List String
deriving DecidableEq, Repr

/-- A part of speech with its definitions. -/
structure Meaning where
  partOfSpeech : String
  definitions : List Definition
deriving DecidableEq, Repr

/-- A dictionary entry.  `phonetic` and `origin` are optional properties;
`phonetics` is read with `?.` by the code, so it may be absent too. -/
structure DictionaryEntry where
  word : String
  phonetic : Option String
  phonetics : Option (List PhoneticEntry)
  origin : Option String
  meanings : List Meaning
deriving DecidableEq, Repr

/-! ## Template literals of `custom-elements.js` -/

/-- The template literal that `render` starts `htmlContent` with. -/
def titleTemplate (word : String) : String :=
  "\n            <div class=\"mb-4\">\n                <h5 class=\"card-title\" id=\"wordTitle\">\n                    Definitions of\n                    <span class=\"text-primary\"\n                        >"
    ++ word ++
  "</span\n                    >\n                </h5>\n            </div>\n\n        "

/-- The template literal that `render` appends for one meaning. -/
def meaningTemplate (partOfSpeech definitionsInformation : String) : String :=
  "\n                <div class=\"mb-4\">\n                    <h6\n                        class=\"text-primary fw-bold small text-lowercase mb-2\"\n                    >\n                        "
    ++ partOfSpeech ++
  "\n                    </h6>\n                    "
    ++ definitionsInformation ++
  "\n                </div>\n            "

/-- The template literal that `getDefinitionsInformation` appends for one
definition: `index` and `definition` are the two interpolated values and
`metadata` is the value of the conditional expression. -/
def definitionTemplate (index definition metadata : String) : String :=
  "\n                <div class=\"mb-3\">\n                    <div class=\"d-flex align-items-start\">\n                        <span\n                            class=\"text-muted fw-bold me-2\"\n                            style=\"width: 20px\"\n                            >"
    ++ index ++
  "</span\n                        >\n                        <div class=\"flex-grow-1\">\n                            <p class=\"text-dark mb-2 lh-sm\">\n                                "
    ++ definition ++
  "\n                            </p>\n                            "
    ++ metadata ++
  "\n                        </div>\n                    </div>\n                </div>\n            "

/-- The arrow function mapped over synonyms and antonyms. -/
def badgeTag (t : String) : String :=
  "<custom-badge label=\"" ++ t ++ "\"></custom-badge>"

/-- The template literal appended when there are synonyms. -/
def synonymsTemplate (badges : String) : String :=
  "\n                <div class=\"text-muted small mb-2\">\n                    Synonyms:\n                </div>\n                "
    ++ badges ++
  "\n            "

/-- The template literal appended when there are antonyms. -/
def antonymsTemplate (badges : String) : String :=
  "\n                <div class=\"text-muted small mb-2\">\n                    Antonyms:\n                </div>\n                "
    ++ badges ++
  "\n            "

/-- The string a template literal interpolates for an integral number. -/
def numberToString (n : Int) : String :=
  toString n

/-! ## `WordInformationElement` -/

/-- The method `getExtraDefinitionMetadata(definition)`. -/
def getExtraDefinitionMetadata (definition : Definition) : String :=
  let text := "<div class=\"ms-0\"> "
  let text :=
    if definition.synonyms.length ≠ 0 then
      text ++ synonymsTemplate (String.join (definition.synonyms.map badgeTag))
    else text
  let text :=
    if definition.antonyms.length ≠ 0 then
      text ++ antonymsTemplate (String.join (definition.antonyms.map badgeTag))
    else text
  text ++ "</div>"

/-- The search of `Array.prototype.indexOf` from position `k` on: the position
of the first element that is the object `d` (compared with `===`), or `-1`. -/
def indexOfFrom : List Definition → Definition → Nat → Int
  | [], _, _ => -1
  | x :: xs, d, k => if x.ident = d.ident then (k : Int) else indexOfFrom xs d (k + 1)

/-- The call `definitions.indexOf(definitionData)`. -/
def indexOf (definitions : List Definition) (definitionData : Definition) : Int :=
  indexOfFrom definitions definitionData 0

/-- The body of the loop of `getDefinitionsInformation`: the text appended for
`definitionData`, an element of `definitions`. -/
def definitionFragment (definitions : List Definition) (definitionData : Definition) : String :=
  let index := indexOf definitions definitionData
  definitionTemplate (numberToString index) definitionData.definition
    (if definitionData.synonyms.length > 0 ∨ definitionData.antonyms.length > 0 then
      getExtraDefinitionMetadata definitionData
    else "")

/-- The method `getDefinitionsInformation(definitions)`. -/
def getDefinitionsInformation (definitions : List Definition) : String :=
  definitions.foldl
    (fun definitionsText definitionData =>
      definitionsText ++ definitionFragment definitions definitionData)
    ""

/-- The value `render(wordData)` assigns to `this.innerHTML`. -/
def render (wordData : DictionaryEntry) : String :=
  wordData.meanings.foldl
    (fun htmlContent meaning =>
      htmlContent ++
        meaningTemplate meaning.partOfSpeech (getDefinitionsInformation meaning.definitions))
    (titleTemplate wordData.word)

/-! ## Values and effects of the host platform -/

/-- A thrown JavaScript value: an `Error` built with a message, the `TypeError`
of reading a property of `undefined` or `null`, or the `TypeError` of a `for`
loop over a value that is not iterable. -/
inductive JsError where
  | error (message : String)
  | typeError (reading : String)
  | notIterable
deriving DecidableEq, Repr

/-- What is left after running code that may throw: the state reached, and the
exception that left the code, if any. -/
structure Run (σ : Type) where
  state : σ
  thrown : Option JsError

/-- A value `JSON.parse` returns for the `wordData` attribute: a dictionary
entry, or a JSON value outside the `DictionaryEntry` typedef. -/
inductive Parsed where
  | entry (e : DictionaryEntry)
  | untyped (v : Nat)
deriving DecidableEq, Repr

/-- A value `response.json()` resolves to: an array of entries (the
`DictionaryResponse` typedef), an object with the properties `title`, `message`
and `resolution` only, which has no element `0` (the document the API answers
an unknown word with), or `null`. -/
inductive JsonValue where
  | entries (es : List DictionaryEntry)
  | noDefinitions (title message resolution : String)
  | null
deriving DecidableEq, Repr

/-- How `fetch(url)` followed by `response.json()` ends: `fetch` rejects, or it
resolves to a response with its `ok` flag, whose body is JSON (`some`) or is not
(`none`, `response.json()` rejects). -/
inductive FetchOutcome where
  | networkError
  | response (ok : Bool) (body : Option JsonValue)
deriving DecidableEq, Repr

/-- The built-in functions the code calls.  `renderUntyped` is what `render`
does with a parsed value outside the typedef: the markup it assigns, or the
exception it throws. -/
structure Platform where
  fetch : String → FetchOutcome
  stringify : DictionaryEntry → String
  stringifyEmptyObject : String
  parse : String → Option Parsed
  renderUntyped : Nat → Except JsError String

/-- White space and line terminators of ECMAScript: the code points
`String.prototype.trim` strips. -/
def isWhiteSpace (c : Char) : Bool :=
  decide (c.toNat ∈ [0x9, 0xA, 0xB, 0xC, 0xD, 0x20, 0xA0, 0x1680, 0x2028, 0x2029,
    0x202F, 0x205F, 0x3000, 0xFEFF]) || (decide (0x2000 ≤ c.toNat) && decide (c.toNat ≤ 0x200A))

/-- The method `String.prototype.trim`. -/
def trim (s : String) : String :=
  ⟨((s.data.dropWhile isWhiteSpace).reverse.dropWhile isWhiteSpace).reverse⟩

/-- The text a node holds after `node.textContent = value`: `undefined` is
converted to `null`, which stands for the empty string. -/
def textContent (value : Option String) : String :=
  value.getD ""

/-- Truthiness of an optional string property: present and not empty. -/
def truthy (value : Option String) : Bool :=
  match value with
  | some s => decide (s ≠ "")
  | none => false

/-! ## `WordInformationElement.connectedCallback` -/

/-- A `word-information` element: its `wordData` attribute (`none` when
`getAttribute` returns `null`) and its content. -/
structure WordInformationElement where
  wordData : Option String
  innerHTML : String
deriving DecidableEq, Repr

/-- The method `connectedCallback()`.  `getAttribute` gives a string or `null`, so
the `typeof` test holds for every attribute that passed the first test. -/
def connectedCallback (P : Platform) (el : WordInformationElement) :
    Run WordInformationElement :=
  match el.wordData with
  | none => ⟨el, some (.error "wordData attribute is required")⟩
  | some wordData =>
    if wordData = "" then
      ⟨el, some (.error "wordData attribute is required")⟩
    else
      match P.parse wordData with
      | none => ⟨el, some (.error "Invalid JSON string in wordData attribute")⟩
      | some (.entry e) => ⟨{ el with innerHTML := render e }, none⟩
      | some (.untyped v) =>
        match P.renderUntyped v with
        | .ok htmlContent => ⟨{ el with innerHTML := htmlContent }, none⟩
        | .error err => ⟨el, some err⟩

/-! ## `DictionaryManager` -/

/-- The constant `API_URL`. -/
def API_URL : String := "https://api.dictionaryapi.dev/api/v2/entries/en/"

/-- The values the field `this.wordData` takes: `undefined`, the empty object
the constructor stores, or an entry. -/
inductive WordData where
  | undefined
  | emptyObject
  | entry (e : DictionaryEntry)
deriving DecidableEq, Repr

/-- The controller fields, the page it writes to, and what it has sent out. -/
structure World where
  /-- the value of `searchInput` -/
  searchInput : String
  /-- the field `this.currentWord` -/
  currentWord : String
  /-- the field `this.wordData` -/
  wordData : WordData
  /-- text of `#offcanvasTopLabel` -/
  headerWord : String
  /-- text of `#wordSpell small` -/
  phoneticText : String
  /-- the source of `this.audio` -/
  audioSrc : String
  /-- children of `this.offcanvasContent` -/
  panel : List WordInformationElement
  /-- whether `this.offcanvas.show()` has been called -/
  offcanvasShown : Bool
  /-- messages passed to `alert` -/
  alerts : List String
  /-- first arguments passed to `console.error` and `console.debug` -/
  console : List String
  /-- URLs passed to `fetch` -/
  requests : List String
  /-- exceptions thrown by custom element reactions, which the host reports -/
  reported : List JsError
deriving DecidableEq, Repr

/-- The state the constructor of `DictionaryManager` leaves on a fresh page. -/
def World.initial : World :=
  { searchInput := "", currentWord := "", wordData := .emptyObject, headerWord := "",
    phoneticText := "", audioSrc := "", panel := [], offcanvasShown := false,
    alerts := [], console := [], requests := [], reported := [] }

/-- The method `getWordPronunciation()`, as a function of `this.wordData`. -/
def getWordPronunciation (wordData : WordData) : Option PhoneticEntry :=
  match wordData with
  | .undefined => none
  | .emptyObject => none
  | .entry e =>
    match e.phonetics with
    | none => none
    | some phonetics => phonetics.find? (fun phonetic => truthy phonetic.audio)

/-- The read `this.wordData.phonetic`: it throws when `this.wordData` is
`undefined`, and gives `undefined` (`none`) when the property is missing. -/
def readPhonetic (wordData : WordData) : Except JsError (Option String) :=
  match wordData with
  | .undefined => .error (.typeError "phonetic")
  | .emptyObject => .ok none
  | .entry e => .ok e.phonetic

/-- The text of `JSON.stringify(this.wordData)`; for `undefined` it is the text
`setAttribute` makes of `undefined`. -/
def stringifyWordData (P : Platform) (wordData : WordData) : String :=
  match wordData with
  | .undefined => "undefined"
  | .emptyObject => P.stringifyEmptyObject
  | .entry e => P.stringify e

/-- The method `updateDOM()`.  An exception of the `connectedCallback` reaction is
reported by the host and does not stop the method. -/
def updateDOM (P : Platform) (w : World) : Run World :=
  let w := { w with panel := [] }
  let w := { w with headerWord := w.currentWord }
  match readPhonetic w.wordData with
  | .error err => ⟨w, some err⟩
  | .ok phonetic =>
    let w := { w with phoneticText := textContent phonetic }
    let w :=
      match getWordPronunciation w.wordData with
      | some audioPronunciationUrl =>
        { w with audioSrc := audioPronunciationUrl.audio.getD "undefined" }
      | none => w
    let r := connectedCallback P
      { wordData := some (stringifyWordData P w.wordData), innerHTML := "" }
    let w := { w with
      panel := w.panel ++ [r.state],
      reported := match r.thrown with
        | some err => w.reported ++ [err]
        | none => w.reported }
    let w := { w with console := w.console ++ ["Showing offcanvas..."] }
    ⟨{ w with offcanvasShown := true }, none⟩

/-- The method `fetchWordData(word)`: the value the promise resolves to (`none` for
`undefined`) and the state afterwards. -/
def fetchWordData (P : Platform) (word : String) (w : World) : Option JsonValue × World :=
  let w := { w with requests := w.requests ++ [API_URL ++ word] }
  match P.fetch (API_URL ++ word) with
  | .networkError =>
    (none, { w with
      console := w.console ++ ["Error fetching data:"],
      alerts := w.alerts ++ ["An error occurred during the fetch operation..."] })
  | .response ok body =>
    let w :=
      if !ok then
        { w with
          alerts := w.alerts ++ ["Word not found. Please try another word."],
          console := w.console ++ ["[object Response]"] }
      else w
    match body with
    | some json => (some json, w)
    | none =>
      (none, { w with
        console := w.console ++ ["Error fetching data:"],
        alerts := w.alerts ++ ["An error occurred during the fetch operation..."] })

/-- The method `loadWord(word)`, run to the settlement of its promise: `thrown` is the
reason the promise is rejected with. -/
def loadWord (P : Platform) (word : String) (w : World) : Run World :=
  match fetchWordData P word w with
  | (none, w) => ⟨w, some (.typeError "0")⟩
  | (some .null, w) => ⟨w, some (.typeError "0")⟩
  | (some (.noDefinitions _ _ _), w) =>
    ⟨{ w with wordData := .undefined }, some (.typeError "word")⟩
  | (some (.entries []), w) =>
    ⟨{ w with wordData := .undefined }, some (.typeError "word")⟩
  | (some (.entries (first :: _)), w) =>
    let w := { w with wordData := .entry first }
    let w := { w with currentWord := first.word }
    updateDOM P w

/-- The function `loadWordWrapped()`: the handler of the search button and of the Enter key.
The promise of `loadWord` is dropped, so nothing is thrown here. -/
def loadWordWrapped (P : Platform) (w : World) : World :=
  let word := trim w.searchInput
  if word ≠ "" then (loadWord P word w).state else w

/-! ## Sample data -/

/-- The definition of the scenario: no synonyms, no antonyms. -/
def sampleDefinition : Definition :=
  { ident := 1, definition := "used as a greeting", usageExample := none,
    synonyms := [], antonyms := [] }

/-- A definition with two synonyms and one antonym. -/
def sampleRichDefinition : Definition :=
  { ident := 2, definition := "an utterance of hello", usageExample := none,
    synonyms := ["greeting", "salutation"], antonyms := ["farewell"] }

/-- The entry of the scenario. -/
def sampleEntry : DictionaryEntry :=
  { word := "hello", phonetic := some "/h/", phonetics := some [⟨"/h/", none⟩],
    origin := none,
    meanings := [{ partOfSpeech := "exclamation", definitions := [sampleDefinition] }] }

/-- The text of `JSON.stringify` for `sampleEntry`. -/
def sampleJson : String :=
  "\x7b\"word\":\"hello\",\"phonetic\":\"/h/\",\"phonetics\":[\x7b\"text\":\"/h/\"\x7d],\"meanings\":[\x7b\"partOfSpeech\":\"exclamation\",\"definitions\":[\x7b\"definition\":\"used as a greeting\",\"synonyms\":[],\"antonyms\":[]\x7d]\x7d]\x7d"

/-- An entry with two phonetics, of which only the second has audio. -/
def sampleAudioEntry : DictionaryEntry :=
  { word := "hello", phonetic := none,
    phonetics := some [⟨"/h/", none⟩, ⟨"/hello/", some "https://x/y.mp3"⟩],
    origin := none, meanings := [] }

/-- A platform for the examples.  The API knows "hello"; it answers "zzzz" with
status 404 and the document for an unknown word, "none" with an empty array,
and cannot be reached for any other word.  `JSON.parse` reads the text of
`sampleEntry` and the text of the empty object, on which `render` throws. -/
def samplePlatform : Platform :=
  { fetch := fun url =>
      if url = API_URL ++ "hello" then .response true (some (.entries [sampleEntry]))
      else if url = API_URL ++ "zzzz" then
        .response false (some (.noDefinitions "No Definitions Found"
          "Sorry pal, we could not find definitions for the word you were looking for."
          "You can try the search again at later time or head to the web instead."))
      else if url = API_URL ++ "none" then .response true (some (.entries []))
      else .networkError
    stringify := fun _ => sampleJson
    stringifyEmptyObject := "\x7b\x7d"
    parse := fun s =>
      if s = sampleJson then some (.entry sampleEntry)
      else if s = "\x7b\x7d" then some (.untyped 0)
      else none
    renderUntyped := fun _ => .error .notIterable }

/-- A page that shows the result of an earlier lookup. -/
def sampleWorld : World :=
  { World.initial with
    searchInput := "  hello \n", currentWord := "bye", headerWord := "bye",
    phoneticText := "/b/", audioSrc := "https://x/previous.mp3", offcanvasShown := true }

/-! ## Lemmas on folds of strings -/

theorem foldl_append_init (l : List String) (init : String) :
    l.foldl (fun r s => r ++ s) init = init ++ String.join l := by
  induction l generalizing init with
  | nil => simp [String.join]
  | cons a l ih =>
    simp only [String.join, List.foldl_cons]
    rw [ih, ih ("" ++ a), String.empty_append, String.append_assoc]

theorem join_cons (a : String) (l : List String) :
    String.join (a :: l) = a ++ String.join l := by
  show List.foldl (fun r s => r ++ s) ("" ++ a) l = a ++ String.join l
  rw [foldl_append_init, String.empty_append]

theorem foldl_append_map {α : Type} (f : α → String) (l : List α) (init : String) :
    l.foldl (fun acc x => acc ++ f x) init = init ++ String.join (l.map f) := by
  induction l generalizing init with
  | nil => simp [String.join]
  | cons a l ih =>
    simp only [List.foldl_cons, List.map_cons]
    rw [ih, join_cons, String.append_assoc]

/-- The loop of `getDefinitionsInformation` concatenates, in the order of the
array, the fragment of each element. -/
theorem getDefinitionsInformation_eq_join (definitions : List Definition) :
    getDefinitionsInformation definitions
      = String.join (definitions.map (definitionFragment definitions)) := by
  unfold getDefinitionsInformation
  rw [foldl_append_map (definitionFragment definitions), String.empty_append]

/-- On an array of pairwise distinct objects, the search of `indexOf` from
position `k` finds the element at offset `i` at position `k + i`. -/
theorem indexOfFrom_get_of_nodup (ds : List Definition) (k i : Nat) (h : i < ds.length)
    (hnd : (ds.map Definition.ident).Nodup) :
    indexOfFrom ds (ds.get ⟨i, h⟩) k = ((k + i : Nat) : Int) := by
  induction ds generalizing k i with
  | nil => simp at h
  | cons x xs ih =>
    rw [List.map_cons, List.nodup_cons] at hnd
    cases i with
    | zero => simp [indexOfFrom]
    | succ j =>
      have hj : j < xs.length := by simpa using h
      have hne : x.ident ≠ (xs.get ⟨j, hj⟩).ident := by
        intro heq
        apply hnd.1
        rw [heq]
        exact List.mem_map_of_mem _ (List.get_mem xs j hj)
      simp only [List.get_cons_succ, indexOfFrom, if_neg hne]
      rw [ih (k + 1) j hj hnd.2]
      congr 1
      omega

/-- On an array of pairwise distinct objects, which is what `JSON.parse` builds
even when two definitions have equal contents, `indexOf` gives every element
its own position. -/
theorem indexOf_get_of_nodup (ds : List Definition) (i : Nat) (h : i < ds.length)
    (hnd : (ds.map Definition.ident).Nodup) :
    indexOf ds (ds.get ⟨i, h⟩) = (i : Int) := by
  unfold indexOf
  rw [indexOfFrom_get_of_nodup ds 0 i h hnd]
  simp

/-- On an array of pairwise distinct objects the fragment at position `i` shows
the index `i`. -/
theorem definitionFragment_get_of_nodup (ds : List Definition) (i : Nat) (h : i < ds.length)
    (hnd : (ds.map Definition.ident).Nodup) :
    definitionFragment ds (ds.get ⟨i, h⟩)
      = definitionTemplate (numberToString i) (ds.get ⟨i, h⟩).definition
          (if (ds.get ⟨i, h⟩).synonyms.length > 0 ∨ (ds.get ⟨i, h⟩).antonyms.length > 0 then
            getExtraDefinitionMetadata (ds.get ⟨i, h⟩)
          else "") := by
  simp only [definitionFragment, indexOf_get_of_nodup ds i h hnd]

/-! ## Rendering -/

/-- The text of the join of two lists is the two joins, one after the other. -/
theorem join_append (l₁ l₂ : List String) :
    String.join (l₁ ++ l₂) = String.join l₁ ++ String.join l₂ := by
  induction l₁ with
  | nil => simp [String.join]
  | cons a l ih => rw [List.cons_append, join_cons, join_cons, ih, String.append_assoc]

/-- The loop of `render` appends, after the title, the text of each meaning in
the order of the array. -/
theorem render_eq_join (e : DictionaryEntry) :
    render e
      = titleTemplate e.word ++ String.join (e.meanings.map fun m =>
          meaningTemplate m.partOfSpeech (getDefinitionsInformation m.definitions)) := by
  unfold render
  rw [foldl_append_map
    (fun m : Meaning =>
      meaningTemplate m.partOfSpeech (getDefinitionsInformation m.definitions))]

/-- The two tests of `getExtraDefinitionMetadata`, as tests on the lists. -/
theorem getExtraDefinitionMetadata_eq (d : Definition) :
    getExtraDefinitionMetadata d
      = "<div class=\"ms-0\"> "
        ++ (if d.synonyms = [] then ""
            else synonymsTemplate (String.join (d.synonyms.map badgeTag)))
        ++ (if d.antonyms = [] then ""
            else antonymsTemplate (String.join (d.antonyms.map badgeTag)))
        ++ "</div>" := by
  unfold getExtraDefinitionMetadata
  by_cases hs : d.synonyms = [] <;> by_cases ha : d.antonyms = [] <;>
    simp [hs, ha, String.append_assoc]

/-- The test of the conditional expression in the loop of
`getDefinitionsInformation`, as a test on the lists. -/
theorem definitionFragment_eq (definitions : List Definition) (d : Definition) :
    definitionFragment definitions d
      = definitionTemplate (numberToString (indexOf definitions d)) d.definition
          (if d.synonyms = [] ∧ d.antonyms = [] then "" else getExtraDefinitionMetadata d) := by
  unfold definitionFragment
  by_cases hs : d.synonyms = [] <;> by_cases ha : d.antonyms = [] <;>
    simp [hs, ha, List.length_pos]

/-- A direct call of `getDefinitionsInformation` with one object at two
positions shows the index 0 twice, since `indexOf` finds the first position of
the object.  `connectedCallback` never makes such a call: the arrays it passes
on come from `JSON.parse`, which builds a new object for every element. -/
theorem getDefinitionsInformation_repeated_object (d : Definition) :
    indexOf [d, d] d = 0
      ∧ getDefinitionsInformation [d, d]
          = definitionTemplate "0" d.definition
              (if d.synonyms.length > 0 ∨ d.antonyms.length > 0 then
                getExtraDefinitionMetadata d else "")
            ++ definitionTemplate "0" d.definition
              (if d.synonyms.length > 0 ∨ d.antonyms.length > 0 then
                getExtraDefinitionMetadata d else "") := by
  have h0 : indexOf [d, d] d = 0 := by simp [indexOf, indexOfFrom]
  have hz : numberToString 0 = "0" := rfl
  refine ⟨h0, ?_⟩
  rw [getDefinitionsInformation_eq_join]
  simp only [List.map_cons, List.map_nil, join_cons, definitionFragment, h0, hz]
  simp [String.join]

/-- C1: the markup of `render` is the title block around the word, followed by
one block per meaning in the order of `meanings`; the block of a meaning is its
heading around its part of speech, once, followed by the text of
`getDefinitionsInformation` for its definitions, which is one fragment per
definition in the order of the definitions, each around the text of the
definition.  Without meanings the markup is the title block alone, and a
meaning without definitions adds its heading and nothing between the heading
and the end of the block. -/
theorem render_eq_title_then_meanings (e : DictionaryEntry) :
    render e
        = "\n            <div class=\"mb-4\">\n                <h5 class=\"card-title\" id=\"wordTitle\">\n                    Definitions of\n                    <span class=\"text-primary\"\n                        >"
          ++ e.word ++
          "</span\n                    >\n                </h5>\n            </div>\n\n        "
          ++ String.join (e.meanings.map fun m =>
            "\n                <div class=\"mb-4\">\n                    <h6\n                        class=\"text-primary fw-bold small text-lowercase mb-2\"\n                    >\n                        "
              ++ m.partOfSpeech ++
            "\n                    </h6>\n                    "
              ++ getDefinitionsInformation m.definitions ++
            "\n                </div>\n            ")
      ∧ (∀ ds : List Definition,
          getDefinitionsInformation ds = String.join (ds.map fun d =>
            "\n                <div class=\"mb-3\">\n                    <div class=\"d-flex align-items-start\">\n                        <span\n                            class=\"text-muted fw-bold me-2\"\n                            style=\"width: 20px\"\n                            >"
              ++ numberToString (indexOf ds d) ++
            "</span\n                        >\n                        <div class=\"flex-grow-1\">\n                            <p class=\"text-dark mb-2 lh-sm\">\n                                "
              ++ d.definition ++
            "\n                            </p>\n                            "
              ++ (if d.synonyms = [] ∧ d.antonyms = [] then "" else getExtraDefinitionMetadata d) ++
            "\n                        </div>\n                    </div>\n                </div>\n            "))
      ∧ render { e with meanings := [] }
          = "\n            <div class=\"mb-4\">\n                <h5 class=\"card-title\" id=\"wordTitle\">\n                    Definitions of\n                    <span class=\"text-primary\"\n                        >"
            ++ e.word ++
            "</span\n                    >\n                </h5>\n            </div>\n\n        "
      ∧ (∀ partOfSpeech : String,
          render { e with meanings := e.meanings ++ [⟨partOfSpeech, []⟩] }
            = render e ++
              ("\n                <div class=\"mb-4\">\n                    <h6\n                        class=\"text-primary fw-bold small text-lowercase mb-2\"\n                    >\n                        "
                ++ partOfSpeech ++
              "\n                    </h6>\n                    " ++
              "\n                </div>\n            ")) := by
  refine ⟨render_eq_join e, fun ds => ?_, ?_, fun partOfSpeech => ?_⟩
  · rw [getDefinitionsInformation_eq_join]
    congr 1
    apply List.map_congr_left
    intro d _
    exact definitionFragment_eq ds d
  · rw [render_eq_join]
    simp [String.join, titleTemplate]
  · rw [render_eq_join, render_eq_join e]
    simp only [List.map_append, List.map_cons, List.map_nil, join_append, join_cons]
    simp [String.join, getDefinitionsInformation, meaningTemplate, String.append_assoc]

/-- The scenario of the specification: the markup of the entry for "hello" holds
the word, the part of speech "exclamation" and the text "used as a greeting",
and no metadata block. -/
theorem render_sampleEntry :
    render sampleEntry
      = "\n            <div class=\"mb-4\">\n                <h5 class=\"card-title\" id=\"wordTitle\">\n                    Definitions of\n                    <span class=\"text-primary\"\n                        >hello</span\n                    >\n                </h5>\n            </div>\n\n        \n                <div class=\"mb-4\">\n                    <h6\n                        class=\"text-primary fw-bold small text-lowercase mb-2\"\n                    >\n                        exclamation\n                    </h6>\n                    \n                <div class=\"mb-3\">\n                    <div class=\"d-flex align-items-start\">\n                        <span\n                            class=\"text-muted fw-bold me-2\"\n                            style=\"width: 20px\"\n                            >0</span\n                        >\n                        <div class=\"flex-grow-1\">\n                            <p class=\"text-dark mb-2 lh-sm\">\n                                used as a greeting\n                            </p>\n                            \n                        </div>\n                    </div>\n                </div>\n            \n                </div>\n            " :=
  (render_eq_title_then_meanings sampleEntry).1.trans rfl

/-- C2: in an array of pairwise distinct definition objects, which is what
`JSON.parse` hands to `render` even when two definitions have equal contents,
`indexOf` gives every element its own position, so the fragment at position `i`
of `getDefinitionsInformation` shows the number `i`; and the block of a meaning
in the markup of `render` shows these numbers whatever the meanings before and
after it are. -/
theorem getDefinitionsInformation_index_is_position (ds : List Definition)
    (hnd : (ds.map Definition.ident).Nodup) :
    getDefinitionsInformation ds
        = String.join (ds.mapIdx fun i d =>
            "\n                <div class=\"mb-3\">\n                    <div class=\"d-flex align-items-start\">\n                        <span\n                            class=\"text-muted fw-bold me-2\"\n                            style=\"width: 20px\"\n                            >"
              ++ toString i ++
            "</span\n                        >\n                        <div class=\"flex-grow-1\">\n                            <p class=\"text-dark mb-2 lh-sm\">\n                                "
              ++ d.definition ++
            "\n                            </p>\n                            "
              ++ (if d.synonyms = [] ∧ d.antonyms = [] then "" else getExtraDefinitionMetadata d) ++
            "\n                        </div>\n                    </div>\n                </div>\n            ")
      ∧ (∀ (i : Nat) (h : i < ds.length), indexOf ds (ds.get ⟨i, h⟩) = (i : Int))
      ∧ (∀ (e : DictionaryEntry) (partOfSpeech : String) (before after : List Meaning),
          render { e with meanings := before ++ ⟨partOfSpeech, ds⟩ :: after }
            = render { e with meanings := before }
              ++ ("\n                <div class=\"mb-4\">\n                    <h6\n                        class=\"text-primary fw-bold small text-lowercase mb-2\"\n                    >\n                        "
                  ++ partOfSpeech ++
                  "\n                    </h6>\n                    "
                  ++ String.join (ds.mapIdx fun i d =>
                    "\n                <div class=\"mb-3\">\n                    <div class=\"d-flex align-items-start\">\n                        <span\n                            class=\"text-muted fw-bold me-2\"\n                            style=\"width: 20px\"\n                            >"
                      ++ toString i ++
                    "</span\n                        >\n                        <div class=\"flex-grow-1\">\n                            <p class=\"text-dark mb-2 lh-sm\">\n                                "
                      ++ d.definition ++
                    "\n                            </p>\n                            "
                      ++ (if d.synonyms = [] ∧ d.antonyms = [] then "" else getExtraDefinitionMetadata d) ++
                    "\n                        </div>\n                    </div>\n                </div>\n            ") ++
                  "\n                </div>\n            ")
              ++ String.join (after.map fun m =>
                  meaningTemplate m.partOfSpeech
                    (getDefinitionsInformation m.definitions))) := by
  have hpos : getDefinitionsInformation ds
      = String.join (ds.mapIdx fun i d =>
          definitionTemplate (toString i) d.definition
            (if d.synonyms = [] ∧ d.antonyms = [] then ""
             else getExtraDefinitionMetadata d)) := by
    rw [getDefinitionsInformation_eq_join]
    congr 1
    apply List.ext_getElem
    · simp
    · intro i h₁ h₂
      have hi : i < ds.length := by simpa using h₁
      rw [List.getElem_map, List.getElem_mapIdx]
      have hfrag := definitionFragment_eq ds (ds.get ⟨i, hi⟩)
      rw [indexOf_get_of_nodup ds i hi hnd] at hfrag
      exact hfrag
  refine ⟨hpos, fun i h => indexOf_get_of_nodup ds i h hnd, ?_⟩
  intro e partOfSpeech before after
  rw [render_eq_join, render_eq_join { e with meanings := before }]
  simp only [List.map_append, List.map_cons, join_append, join_cons]
  rw [hpos]
  simp only [meaningTemplate, definitionTemplate, String.append_assoc]

/-- Two definition objects with equal contents, as `JSON.parse` builds them for
an array that lists a definition twice, are numbered 0 and 1. -/
theorem getDefinitionsInformation_equal_contents :
    getDefinitionsInformation [sampleDefinition, { sampleDefinition with ident := 2 }]
      = "\n                <div class=\"mb-3\">\n                    <div class=\"d-flex align-items-start\">\n                        <span\n                            class=\"text-muted fw-bold me-2\"\n                            style=\"width: 20px\"\n                            >0</span\n                        >\n                        <div class=\"flex-grow-1\">\n                            <p class=\"text-dark mb-2 lh-sm\">\n                                used as a greeting\n                            </p>\n                            \n                        </div>\n                    </div>\n                </div>\n            \n                <div class=\"mb-3\">\n                    <div class=\"d-flex align-items-start\">\n                        <span\n                            class=\"text-muted fw-bold me-2\"\n                            style=\"width: 20px\"\n                            >1</span\n                        >\n                        <div class=\"flex-grow-1\">\n                            <p class=\"text-dark mb-2 lh-sm\">\n                                used as a greeting\n                            </p>\n                            \n                        </div>\n                    </div>\n                </div>\n            " :=
  (getDefinitionsInformation_index_is_position
    [sampleDefinition, { sampleDefinition with ident := 2 }] (by decide)).1.trans rfl

/-- C3: the fragment of `getExtraDefinitionMetadata` is the wrapper around a
Synonyms section followed by an Antonyms section.  A section is absent when its
list is empty; otherwise it is its heading followed by the `custom-badge` tags
of the elements of the list, one per element, in the order of the list and
labelled with the element. -/
theorem getExtraDefinitionMetadata_sections (d : Definition) :
    getExtraDefinitionMetadata d
      = ("<div class=\"ms-0\"> "
          ++ (if d.synonyms = [] then ""
              else "\n                <div class=\"text-muted small mb-2\">\n                    Synonyms:\n                </div>\n                "
                ++ String.join (d.synonyms.map fun t => "<custom-badge label=\"" ++ t ++ "\"></custom-badge>")
                ++ "\n            ")
          ++ (if d.antonyms = [] then ""
              else "\n                <div class=\"text-muted small mb-2\">\n                    Antonyms:\n                </div>\n                "
                ++ String.join (d.antonyms.map fun t => "<custom-badge label=\"" ++ t ++ "\"></custom-badge>")
                ++ "\n            ")
          ++ "</div>") := by
  exact getExtraDefinitionMetadata_eq d

/-- The metadata of a definition with two synonyms and one antonym, and of the
same definition without its synonyms. -/
theorem getExtraDefinitionMetadata_sampleRichDefinition :
    getExtraDefinitionMetadata sampleRichDefinition
        = "<div class=\"ms-0\"> \n                <div class=\"text-muted small mb-2\">\n                    Synonyms:\n                </div>\n                <custom-badge label=\"greeting\"></custom-badge><custom-badge label=\"salutation\"></custom-badge>\n            \n                <div class=\"text-muted small mb-2\">\n                    Antonyms:\n                </div>\n                <custom-badge label=\"farewell\"></custom-badge>\n            </div>"
      ∧ getExtraDefinitionMetadata { sampleRichDefinition with synonyms := [] }
        = "<div class=\"ms-0\"> \n                <div class=\"text-muted small mb-2\">\n                    Antonyms:\n                </div>\n                <custom-badge label=\"farewell\"></custom-badge>\n            </div>" :=
  ⟨(getExtraDefinitionMetadata_sections sampleRichDefinition).trans rfl,
   (getExtraDefinitionMetadata_sections { sampleRichDefinition with synonyms := [] }).trans rfl⟩

/-- C4: the text of `getDefinitionsInformation` is one fragment per definition,
around the index and the text of the definition; after the text the fragment
holds nothing but its closing tags when the synonyms and the antonyms of the
definition are both empty, and the metadata block, with its wrapper and its
sections, when one of the two lists is not empty. -/
theorem definitionFragment_metadata (definitions : List Definition) (d : Definition) :
    getDefinitionsInformation definitions = String.join (definitions.map fun d =>
        "\n                <div class=\"mb-3\">\n                    <div class=\"d-flex align-items-start\">\n                        <span\n                            class=\"text-muted fw-bold me-2\"\n                            style=\"width: 20px\"\n                            >"
          ++ numberToString (indexOf definitions d) ++
        "</span\n                        >\n                        <div class=\"flex-grow-1\">\n                            <p class=\"text-dark mb-2 lh-sm\">\n                                "
          ++ d.definition ++
        "\n                            </p>\n                            "
          ++ (if d.synonyms = [] ∧ d.antonyms = [] then ""
           else ("<div class=\"ms-0\"> "
          ++ (if d.synonyms = [] then ""
              else "\n                <div class=\"text-muted small mb-2\">\n                    Synonyms:\n                </div>\n                "
                ++ String.join (d.synonyms.map fun t => "<custom-badge label=\"" ++ t ++ "\"></custom-badge>")
                ++ "\n            ")
          ++ (if d.antonyms = [] then ""
              else "\n                <div class=\"text-muted small mb-2\">\n                    Antonyms:\n                </div>\n                "
                ++ String.join (d.antonyms.map fun t => "<custom-badge label=\"" ++ t ++ "\"></custom-badge>")
                ++ "\n            ")
          ++ "</div>")) ++
        "\n                        </div>\n                    </div>\n                </div>\n            ")
      ∧ (d.synonyms = [] → d.antonyms = [] →
          getDefinitionsInformation [d] =
            "\n                <div class=\"mb-3\">\n                    <div class=\"d-flex align-items-start\">\n                        <span\n                            class=\"text-muted fw-bold me-2\"\n                            style=\"width: 20px\"\n                            >"
              ++ "0" ++
            "</span\n                        >\n                        <div class=\"flex-grow-1\">\n                            <p class=\"text-dark mb-2 lh-sm\">\n                                "
              ++ d.definition ++
            "\n                            </p>\n                            " ++
            "\n                        </div>\n                    </div>\n                </div>\n            ")
      ∧ (¬ (d.synonyms = [] ∧ d.antonyms = []) →
          getDefinitionsInformation [d] =
            "\n                <div class=\"mb-3\">\n                    <div class=\"d-flex align-items-start\">\n                        <span\n                            class=\"text-muted fw-bold me-2\"\n                            style=\"width: 20px\"\n                            >"
              ++ "0" ++
            "</span\n                        >\n                        <div class=\"flex-grow-1\">\n                            <p class=\"text-dark mb-2 lh-sm\">\n                                "
              ++ d.definition ++
            "\n                            </p>\n                            "
              ++ ("<div class=\"ms-0\"> "
              ++ (if d.synonyms = [] then ""
                  else "\n                <div class=\"text-muted small mb-2\">\n                    Synonyms:\n                </div>\n                "
                    ++ String.join (d.synonyms.map fun t => "<custom-badge label=\"" ++ t ++ "\"></custom-badge>")
                    ++ "\n            ")
              ++ (if d.antonyms = [] then ""
                  else "\n                <div class=\"text-muted small mb-2\">\n                    Antonyms:\n                </div>\n                "
                    ++ String.join (d.antonyms.map fun t => "<custom-badge label=\"" ++ t ++ "\"></custom-badge>")
                    ++ "\n            ")
              ++ "</div>") ++
            "\n                        </div>\n                    </div>\n                </div>\n            ") := by
  have hfrag1 : getDefinitionsInformation [d]
      = definitionTemplate "0" d.definition
          (if d.synonyms = [] ∧ d.antonyms = [] then "" else getExtraDefinitionMetadata d) := by
    have h0 : indexOf [d] d = 0 := by simp [indexOf, indexOfFrom]
    have hz : numberToString 0 = "0" := rfl
    rw [getDefinitionsInformation_eq_join]
    simp only [List.map_cons, List.map_nil, join_cons, definitionFragment_eq, h0, hz]
    simp [String.join]
  refine ⟨?_, ?_, ?_⟩
  · rw [getDefinitionsInformation_eq_join]
    congr 1
    apply List.map_congr_left
    intro x _
    rw [definitionFragment_eq, getExtraDefinitionMetadata_eq]
    rfl
  · intro hs ha
    rw [hfrag1, if_pos ⟨hs, ha⟩]
    simp [definitionTemplate, String.append_assoc]
  · intro hne
    rw [hfrag1, if_neg hne, getExtraDefinitionMetadata_eq]
    rfl

/-- The fragment of the definition of the scenario, which has no synonyms and
no antonyms, and the fragment of a definition with both. -/
theorem definitionFragment_metadata_sample :
    getDefinitionsInformation [sampleDefinition]
        = "\n                <div class=\"mb-3\">\n                    <div class=\"d-flex align-items-start\">\n                        <span\n                            class=\"text-muted fw-bold me-2\"\n                            style=\"width: 20px\"\n                            >0</span\n                        >\n                        <div class=\"flex-grow-1\">\n                            <p class=\"text-dark mb-2 lh-sm\">\n                                used as a greeting\n                            </p>\n                            \n                        </div>\n                    </div>\n                </div>\n            "
      ∧ getDefinitionsInformation [sampleRichDefinition]
        = "\n                <div class=\"mb-3\">\n                    <div class=\"d-flex align-items-start\">\n                        <span\n                            class=\"text-muted fw-bold me-2\"\n                            style=\"width: 20px\"\n                            >0</span\n                        >\n                        <div class=\"flex-grow-1\">\n                            <p class=\"text-dark mb-2 lh-sm\">\n                                an utterance of hello\n                            </p>\n                            <div class=\"ms-0\"> \n                <div class=\"text-muted small mb-2\">\n                    Synonyms:\n                </div>\n                <custom-badge label=\"greeting\"></custom-badge><custom-badge label=\"salutation\"></custom-badge>\n            \n                <div class=\"text-muted small mb-2\">\n                    Antonyms:\n                </div>\n                <custom-badge label=\"farewell\"></custom-badge>\n            </div>\n                        </div>\n                    </div>\n                </div>\n            " :=
  ⟨((definitionFragment_metadata [] sampleDefinition).2.1 rfl rfl).trans rfl,
   ((definitionFragment_metadata [] sampleRichDefinition).2.2 (by decide)).trans rfl⟩

/-! ## Pronunciation -/

/-- The audio source after `updateDOM`: the audio of the element that
`getWordPronunciation` finds, or the audio source of before. -/
theorem getWordPronunciation_audio (P : Platform) (w : World) :
    (updateDOM P w).state.audioSrc
      = ((getWordPronunciation w.wordData).bind PhoneticEntry.audio).getD w.audioSrc := by
  have hfound : ∀ wd q, getWordPronunciation wd = some q → ∃ a, q.audio = some a := by
    intro wd q hq
    cases wd with
    | undefined => simp [getWordPronunciation] at hq
    | emptyObject => simp [getWordPronunciation] at hq
    | entry e =>
      cases hph : e.phonetics with
      | none => simp [getWordPronunciation, hph] at hq
      | some phonetics =>
        simp only [getWordPronunciation, hph] at hq
        have hp := List.find?_some hq
        cases ha : q.audio with
        | none => simp [truthy, ha] at hp
        | some a => exact ⟨a, rfl⟩
  cases hwd : w.wordData with
  | undefined => simp [updateDOM, readPhonetic, hwd, getWordPronunciation]
  | emptyObject => simp [updateDOM, readPhonetic, hwd, getWordPronunciation]
  | entry e =>
    cases hq : getWordPronunciation (.entry e) with
    | none => simp [updateDOM, readPhonetic, hwd, hq]
    | some q =>
      obtain ⟨a, ha⟩ := hfound _ q hq
      simp [updateDOM, readPhonetic, hwd, hq, ha]


/-- C5: for a stored entry `getWordPronunciation` returns `p` exactly when `p`
stands in `phonetics` after elements that all lack a non-empty `audio`, and
itself has one; it returns `null` exactly when `phonetics` is absent or no
element has a non-empty `audio`, and also when nothing or the empty object is
stored.  `updateDOM` sets the audio source to the `audio` of the element
found and leaves the audio source as it was when none is found. -/
theorem getWordPronunciation_first_with_audio (P : Platform) (w : World)
    (e : DictionaryEntry) (p : PhoneticEntry) :
    (getWordPronunciation (.entry e) = some p ↔
        ∃ before after a, e.phonetics = some (before ++ p :: after)
          ∧ (∀ q ∈ before, q.audio = none ∨ q.audio = some "")
          ∧ p.audio = some a ∧ a ≠ "")
      ∧ (getWordPronunciation (.entry e) = none ↔
          e.phonetics = none
            ∨ ∃ phonetics, e.phonetics = some phonetics
                ∧ ∀ q ∈ phonetics, q.audio = none ∨ q.audio = some "")
      ∧ getWordPronunciation .undefined = none
      ∧ getWordPronunciation .emptyObject = none
      ∧ (updateDOM P w).state.audioSrc
          = ((getWordPronunciation w.wordData).bind PhoneticEntry.audio).getD w.audioSrc := by
  have htruthy : ∀ q : PhoneticEntry,
      truthy q.audio = true ↔ ∃ a, q.audio = some a ∧ a ≠ "" := by
    intro q
    cases hq : q.audio with
    | none => simp [truthy]
    | some a => simp [truthy]
  have hfalsy : ∀ q : PhoneticEntry,
      (¬ truthy q.audio = true) ↔ (q.audio = none ∨ q.audio = some "") := by
    intro q
    cases hq : q.audio with
    | none => simp [truthy]
    | some a => simp [truthy]
  refine ⟨?_, ?_, rfl, rfl, ?_⟩
  · cases hph : e.phonetics with
    | none => simp [getWordPronunciation, hph]
    | some phonetics =>
      simp only [getWordPronunciation, hph, List.find?_eq_some, htruthy, Option.some.injEq]
      constructor
      · rintro ⟨⟨a, ha, hne⟩, before, after, hsplit, hbefore⟩
        refine ⟨before, after, a, hsplit, ?_, ha, hne⟩
        intro q hq
        have := hbefore q hq
        exact (hfalsy q).1 (by simpa using this)
      · rintro ⟨before, after, a, hsplit, hbefore, ha, hne⟩
        refine ⟨⟨a, ha, hne⟩, before, after, hsplit, ?_⟩
        intro q hq
        have := (hfalsy q).2 (hbefore q hq)
        simpa using this
  · cases hph : e.phonetics with
    | none => simp [getWordPronunciation, hph]
    | some phonetics =>
      simp only [getWordPronunciation, hph, List.find?_eq_none, hfalsy]
      simp
  · exact getWordPronunciation_audio P w

/-- The scenario of the specification: of two phonetics the second, the first
one with audio, is selected, and `updateDOM` makes its URL the audio source. -/
theorem getWordPronunciation_sampleAudioEntry :
    getWordPronunciation (.entry sampleAudioEntry)
        = some ⟨"/hello/", some "https://x/y.mp3"⟩
      ∧ (updateDOM samplePlatform
          { sampleWorld with wordData := .entry sampleAudioEntry }).state.audioSrc
          = "https://x/y.mp3" := by
  have h := getWordPronunciation_first_with_audio samplePlatform
    { sampleWorld with wordData := .entry sampleAudioEntry } sampleAudioEntry
    ⟨"/hello/", some "https://x/y.mp3"⟩
  have hfound : getWordPronunciation (.entry sampleAudioEntry)
      = some ⟨"/hello/", some "https://x/y.mp3"⟩ := by
    rw [h.1]
    exact ⟨[⟨"/h/", none⟩], [], "https://x/y.mp3", rfl, by simp, rfl, by decide⟩
  refine ⟨hfound, ?_⟩
  rw [h.2.2.2.2]
  simp [hfound]

/-! ## Connecting the element -/

/-- C6: `connectedCallback` throws the error "wordData attribute is required"
when the attribute is missing or empty, and the error "Invalid JSON string in
wordData attribute" when `JSON.parse` rejects it; in both cases the exception
leaves the method and the element is as it was.  When the attribute parses to a
dictionary entry nothing is thrown and the content of the element becomes the
markup of that entry. -/
theorem connectedCallback_outcomes (P : Platform) (el : WordInformationElement) :
    (el.wordData = none ∨ el.wordData = some "" →
        connectedCallback P el = ⟨el, some (.error "wordData attribute is required")⟩)
      ∧ (∀ s, el.wordData = some s → s ≠ "" → P.parse s = none →
          connectedCallback P el
            = ⟨el, some (.error "Invalid JSON string in wordData attribute")⟩)
      ∧ (∀ s e, el.wordData = some s → s ≠ "" → P.parse s = some (.entry e) →
          connectedCallback P el = ⟨{ el with innerHTML := render e }, none⟩) := by
  refine ⟨?_, ?_, ?_⟩
  · rintro (h | h) <;> simp [connectedCallback, h]
  · intro s hs hne hparse
    simp [connectedCallback, hs, hne, hparse]
  · intro s e hs hne hparse
    simp [connectedCallback, hs, hne, hparse]

/-- The three outcomes of `connectedCallback` on the sample platform: without
the attribute, with a text that is not JSON, and with the text of the sample
entry. -/
theorem connectedCallback_outcomes_witness :
    connectedCallback samplePlatform ⟨none, "old"⟩
        = ⟨⟨none, "old"⟩, some (.error "wordData attribute is required")⟩
      ∧ connectedCallback samplePlatform ⟨some "not json", "old"⟩
        = ⟨⟨some "not json", "old"⟩, some (.error "Invalid JSON string in wordData attribute")⟩
      ∧ connectedCallback samplePlatform ⟨some sampleJson, "old"⟩
        = ⟨⟨some sampleJson, render sampleEntry⟩, none⟩ :=
  ⟨(connectedCallback_outcomes samplePlatform ⟨none, "old"⟩).1 (Or.inl rfl),
   (connectedCallback_outcomes samplePlatform ⟨some "not json", "old"⟩).2.1
      "not json" rfl (by decide) (by simp [samplePlatform, sampleJson]),
   (connectedCallback_outcomes samplePlatform ⟨some sampleJson, "old"⟩).2.2
      sampleJson sampleEntry rfl (by simp [sampleJson]) (by simp [samplePlatform])⟩

/-! ## The search action -/

/-- The trimmed string is empty exactly when every character is white space. -/
theorem trim_eq_empty_iff (s : String) :
    trim s = "" ↔ ∀ c ∈ s.data, isWhiteSpace c = true := by
  have hdata : trim s = "" ↔
      ((s.data.dropWhile isWhiteSpace).reverse.dropWhile isWhiteSpace).reverse = [] := by
    constructor
    · intro h
      have := congrArg String.data h
      simpa [trim] using this
    · intro h
      apply String.ext
      simpa [trim] using h
  rw [hdata, List.reverse_eq_nil_iff, List.dropWhile_eq_nil_iff]
  constructor
  · intro h
    have hall : ∀ x ∈ s.data.dropWhile isWhiteSpace, isWhiteSpace x = true := by
      intro x hx
      exact h x (List.mem_reverse.2 hx)
    have hnil : s.data.dropWhile isWhiteSpace = [] := by
      rw [← List.dropWhile_idempotent]
      exact List.dropWhile_eq_nil_iff.2 hall
    exact List.dropWhile_eq_nil_iff.1 hnil
  · intro h x hx
    have hnil : s.data.dropWhile isWhiteSpace = [] := List.dropWhile_eq_nil_iff.2 h
    rw [hnil] at hx
    simp at hx

/-- The trimmed string is the content without a leading and a trailing run of
white space, and neither starts nor ends with white space. -/
theorem trim_surrounding (s : String) :
    ∃ leading trailing : List Char,
      s.data = leading ++ (trim s).data ++ trailing
        ∧ (∀ c ∈ leading, isWhiteSpace c = true)
        ∧ (∀ c ∈ trailing, isWhiteSpace c = true)
        ∧ (∀ c, (trim s).data.head? = some c → isWhiteSpace c = false)
        ∧ (∀ c, (trim s).data.getLast? = some c → isWhiteSpace c = false) := by
  let rest := s.data.dropWhile isWhiteSpace
  have h1 : s.data = s.data.takeWhile isWhiteSpace ++ rest :=
    (List.takeWhile_append_dropWhile isWhiteSpace s.data).symm
  have h2 : rest.reverse
      = rest.reverse.takeWhile isWhiteSpace ++ rest.reverse.dropWhile isWhiteSpace :=
    (List.takeWhile_append_dropWhile isWhiteSpace rest.reverse).symm
  have h3 : rest = (rest.reverse.dropWhile isWhiteSpace).reverse
      ++ (rest.reverse.takeWhile isWhiteSpace).reverse := by
    rw [← List.reverse_append, ← h2, List.reverse_reverse]
  refine ⟨s.data.takeWhile isWhiteSpace, (rest.reverse.takeWhile isWhiteSpace).reverse,
    ?_, ?_, ?_, ?_, ?_⟩
  · show s.data = s.data.takeWhile isWhiteSpace
      ++ (rest.reverse.dropWhile isWhiteSpace).reverse
      ++ (rest.reverse.takeWhile isWhiteSpace).reverse
    rw [List.append_assoc, ← h3]
    exact h1
  · intro c hc
    exact (List.mem_takeWhile_imp hc)
  · intro c hc
    exact (List.mem_takeWhile_imp (List.mem_reverse.1 hc))
  · intro c hc
    have hc2 : ((rest.reverse.dropWhile isWhiteSpace).reverse).head? = some c := hc
    have hrest : rest.head? = some c := by
      rw [h3]
      cases hl : (rest.reverse.dropWhile isWhiteSpace).reverse with
      | nil => rw [hl] at hc2; simp at hc2
      | cons x xs => rw [hl] at hc2; simpa using hc2
    have := List.head?_dropWhile_not isWhiteSpace s.data
    rw [show s.data.dropWhile isWhiteSpace = rest from rfl, hrest] at this
    simpa using this
  · intro c hc
    have hc2 : ((rest.reverse.dropWhile isWhiteSpace).reverse).getLast? = some c := hc
    rw [List.getLast?_reverse] at hc2
    have := List.head?_dropWhile_not isWhiteSpace rest.reverse
    rw [hc2] at this
    simpa using this

/-- What `fetchWordData` changes: it adds the request, and possibly alerts and
console lines; the controller fields and the page stay as they are. -/
theorem fetchWordData_state (P : Platform) (word : String) (w : World) :
    ∃ alerts console, (fetchWordData P word w).2
      = { w with requests := w.requests ++ [API_URL ++ word],
                 alerts := alerts, console := console } := by
  unfold fetchWordData
  cases hf : P.fetch (API_URL ++ word) with
  | networkError => exact ⟨_, _, rfl⟩
  | response ok body =>
    cases ok <;> cases body <;> exact ⟨_, _, rfl⟩

/-- The requests sent do not change in `updateDOM`. -/
theorem updateDOM_requests (P : Platform) (w : World) :
    (updateDOM P w).state.requests = w.requests := by
  unfold updateDOM
  cases hwd : w.wordData with
  | undefined => simp [readPhonetic, hwd]
  | emptyObject => simp [readPhonetic, hwd, getWordPronunciation]
  | entry e =>
    cases hq : getWordPronunciation (.entry e) <;> simp [readPhonetic, hwd, hq]

/-- A call of `loadWord` sends exactly one request, for the word it is given. -/
theorem loadWord_requests (P : Platform) (word : String) (w : World) :
    (loadWord P word w).state.requests = w.requests ++ [API_URL ++ word] := by
  obtain ⟨alerts, console, hstate⟩ := fetchWordData_state P word w
  unfold loadWord
  cases hres : fetchWordData P word w with
  | mk value w2 =>
    have hw2 : w2.requests = w.requests ++ [API_URL ++ word] := by
      have h2 : w2 = (fetchWordData P word w).2 := by rw [hres]
      rw [h2, hstate]
    cases value with
    | none => simp [hw2]
    | some json =>
      cases json with
      | null => simp [hw2]
      | noDefinitions t m r => simp [hw2]
      | entries es =>
        cases es with
        | nil => simp [hw2]
        | cons first rest => simp [updateDOM_requests, hw2]

/-- C10: a search action calls `loadWord` exactly when the trimmed content of
the search field is not empty, and with the trimmed content: the state
afterwards is the one `loadWord` leaves for the trimmed content, and the one
request sent is for the trimmed content.  When the content is empty or all
white space, which is when its trimmed form is empty, the state is unchanged
and no request is sent. -/
theorem loadWordWrapped_trimmed (P : Platform) (w : World) :
    loadWordWrapped P w
        = (if trim w.searchInput = "" then w
           else (loadWord P (trim w.searchInput) w).state)
      ∧ (loadWordWrapped P w).requests
        = (if trim w.searchInput = "" then w.requests
           else w.requests ++ [API_URL ++ trim w.searchInput])
      ∧ (trim w.searchInput = "" ↔ ∀ c ∈ w.searchInput.data, isWhiteSpace c = true)
      ∧ ((∀ c ∈ w.searchInput.data, isWhiteSpace c = true) → loadWordWrapped P w = w) := by
  have hdef : loadWordWrapped P w
      = (if trim w.searchInput = "" then w
         else (loadWord P (trim w.searchInput) w).state) := by
    unfold loadWordWrapped
    by_cases h : trim w.searchInput = "" <;> simp [h]
  refine ⟨hdef, ?_, trim_eq_empty_iff w.searchInput, ?_⟩
  · rw [hdef]
    by_cases h : trim w.searchInput = ""
    · simp [h]
    · simp [h, loadWord_requests]
  · intro hall
    rw [hdef, if_pos ((trim_eq_empty_iff w.searchInput).2 hall)]

/-- A search for "  hello \n" sends the one request for "hello"; a search for
white space alone changes nothing. -/
theorem loadWordWrapped_trimmed_witness :
    (loadWordWrapped samplePlatform sampleWorld).requests = [API_URL ++ "hello"]
      ∧ loadWordWrapped samplePlatform { sampleWorld with searchInput := " \t\n" }
          = { sampleWorld with searchInput := " \t\n" } := by
  refine ⟨?_, ?_⟩
  · rw [(loadWordWrapped_trimmed samplePlatform sampleWorld).2.1]
    have ht : trim sampleWorld.searchInput = "hello" := by decide
    rw [ht]
    rfl
  · apply (loadWordWrapped_trimmed samplePlatform
      { sampleWorld with searchInput := " \t\n" }).2.2.2
    decide

/-! ## Lookups -/

/-- C8: when `fetch` rejects, or the response body is the empty array,
`loadWord` ends with the `TypeError` of a property read on `undefined`; the
state it leaves is the one `fetchWordData` left, up to the stored entry, so
`updateDOM` has not run, and the header word, the phonetic text, the audio
source, the panel content and the visibility of the panel are as before. -/
theorem loadWord_fails_before_updateDOM (P : Platform) (word : String) (w : World)
    (h : P.fetch (API_URL ++ word) = .networkError
      ∨ ∃ ok, P.fetch (API_URL ++ word) = .response ok (some (.entries []))) :
    ((loadWord P word w).thrown = some (.typeError "0")
        ∨ (loadWord P word w).thrown = some (.typeError "word"))
      ∧ ((loadWord P word w).state = (fetchWordData P word w).2
        ∨ (loadWord P word w).state
            = { (fetchWordData P word w).2 with wordData := .undefined })
      ∧ (loadWord P word w).state.headerWord = w.headerWord
      ∧ (loadWord P word w).state.phoneticText = w.phoneticText
      ∧ (loadWord P word w).state.audioSrc = w.audioSrc
      ∧ (loadWord P word w).state.panel = w.panel
      ∧ (loadWord P word w).state.offcanvasShown = w.offcanvasShown
      ∧ (loadWord P word w).state.currentWord = w.currentWord := by
  rcases h with h | ⟨ok, h⟩
  · simp [loadWord, fetchWordData, h]
  · cases ok <;> simp [loadWord, fetchWordData, h]

/-- The lookups of "none" (empty array) and of a word for which the API cannot
be reached, on a page that shows an earlier result. -/
theorem loadWord_fails_before_updateDOM_witness :
    (loadWord samplePlatform "none" sampleWorld).thrown = some (.typeError "word")
      ∧ (loadWord samplePlatform "none" sampleWorld).state.headerWord = "bye"
      ∧ (loadWord samplePlatform "offline" sampleWorld).thrown = some (.typeError "0")
      ∧ (loadWord samplePlatform "offline" sampleWorld).state.audioSrc
          = "https://x/previous.mp3" := by
  have hnone : samplePlatform.fetch (API_URL ++ "none")
      = .response true (some (.entries [])) := by decide
  have hoff : samplePlatform.fetch (API_URL ++ "offline") = .networkError := by decide
  have h1 := loadWord_fails_before_updateDOM samplePlatform "none" sampleWorld
    (Or.inr ⟨true, hnone⟩)
  have h2 := loadWord_fails_before_updateDOM samplePlatform "offline" sampleWorld
    (Or.inl hoff)
  refine ⟨?_, h1.2.2.1, ?_, h2.2.2.2.2.1⟩
  · simp [loadWord, fetchWordData, hnone]
  · simp [loadWord, fetchWordData, hoff]

/-- C7: after a response with a non-success status `loadWord` goes on with the
body.  With the document for an unknown word, the "Word not found" alert is
shown, the stored entry becomes `undefined` and the `TypeError` of reading
`word` leaves `loadWord`.  With a body that is not JSON a second alert is shown
and the `TypeError` of reading element `0` leaves `loadWord`.  With a non-empty
array of entries `updateDOM` runs: the header shows the word of the first
entry and the panel is shown. -/
theorem loadWord_not_found_falls_through (P : Platform) (word : String) (w : World) :
    (∀ t m r, P.fetch (API_URL ++ word) = .response false (some (.noDefinitions t m r)) →
        (loadWord P word w).thrown = some (.typeError "word")
          ∧ (loadWord P word w).state.wordData = .undefined
          ∧ (loadWord P word w).state.alerts
              = w.alerts ++ ["Word not found. Please try another word."])
      ∧ (P.fetch (API_URL ++ word) = .response false none →
        (loadWord P word w).thrown = some (.typeError "0")
          ∧ (loadWord P word w).state.alerts
              = w.alerts ++ ["Word not found. Please try another word.",
                  "An error occurred during the fetch operation..."])
      ∧ (∀ e es, P.fetch (API_URL ++ word) = .response false (some (.entries (e :: es))) →
        (loadWord P word w).thrown = none
          ∧ (loadWord P word w).state.headerWord = e.word
          ∧ (loadWord P word w).state.offcanvasShown = true
          ∧ (loadWord P word w).state.alerts
              = w.alerts ++ ["Word not found. Please try another word."]) := by
  refine ⟨?_, ?_, ?_⟩
  · intro t m r h
    simp [loadWord, fetchWordData, h]
  · intro h
    simp [loadWord, fetchWordData, h]
  · intro e es h
    cases hq : getWordPronunciation (.entry e) <;>
      simp [loadWord, fetchWordData, h, updateDOM, readPhonetic, hq]

/-- The lookup of "zzzz", which the API answers with status 404 and the
document for an unknown word. -/
theorem loadWord_not_found_falls_through_witness :
    (loadWord samplePlatform "zzzz" sampleWorld).thrown = some (.typeError "word")
      ∧ (loadWord samplePlatform "zzzz" sampleWorld).state.wordData = .undefined
      ∧ (loadWord samplePlatform "zzzz" sampleWorld).state.alerts
          = ["Word not found. Please try another word."] :=
  (loadWord_not_found_falls_through samplePlatform "zzzz" sampleWorld).1
    "No Definitions Found"
    "Sorry pal, we could not find definitions for the word you were looking for."
    "You can try the search again at later time or head to the web instead."
    (by decide)

/-- C9, as stated, fails: the same successful lookup of "hello", whose first
entry has no audio, run on two pages that differ in the audio source only,
leaves two different audio sources, each the one of the earlier lookup. -/
theorem loadWord_keeps_previous_audio :
    samplePlatform.fetch (API_URL ++ "hello")
        = .response true (some (.entries [sampleEntry]))
      ∧ (loadWord samplePlatform "hello" sampleWorld).thrown = none
      ∧ (loadWord samplePlatform "hello" sampleWorld).state.audioSrc
          = "https://x/previous.mp3"
      ∧ (loadWord samplePlatform "hello"
          { sampleWorld with audioSrc := "https://x/other.mp3" }).state.audioSrc
          = "https://x/other.mp3" := by
  have hfetch : samplePlatform.fetch (API_URL ++ "hello")
      = .response true (some (.entries [sampleEntry])) := by decide
  have hq : getWordPronunciation (.entry sampleEntry) = none := by decide
  refine ⟨hfetch, ?_, ?_, ?_⟩ <;>
    simp [loadWord, fetchWordData, hfetch, updateDOM, readPhonetic, hq, sampleWorld]

/-- C9, amended: after a lookup whose response body is a non-empty array, the
stored entry and word are the first entry and its word, nothing is thrown, the
header shows that word, the phonetic text is the one of that entry, the panel
holds the one `word-information` element built from that entry and is shown;
the audio source is the audio of the first phonetic with audio of that entry
when there is one, and otherwise stays what it was before the lookup.  When
the text of the entry parses back to an entry, the content of the element is
the markup of the parsed entry. -/
theorem loadWord_success_replaces (P : Platform) (word : String) (w : World)
    (ok : Bool) (e : DictionaryEntry) (es : List DictionaryEntry)
    (h : P.fetch (API_URL ++ word) = .response ok (some (.entries (e :: es)))) :
    (loadWord P word w).thrown = none
      ∧ (loadWord P word w).state.wordData = .entry e
      ∧ (loadWord P word w).state.currentWord = e.word
      ∧ (loadWord P word w).state.headerWord = e.word
      ∧ (loadWord P word w).state.phoneticText = textContent e.phonetic
      ∧ (loadWord P word w).state.panel
          = [(connectedCallback P ⟨some (P.stringify e), ""⟩).state]
      ∧ (loadWord P word w).state.offcanvasShown = true
      ∧ (loadWord P word w).state.audioSrc
          = ((getWordPronunciation (.entry e)).bind PhoneticEntry.audio).getD w.audioSrc
      ∧ (∀ parsed, P.stringify e ≠ "" → P.parse (P.stringify e) = some (.entry parsed) →
          (loadWord P word w).state.panel = [⟨some (P.stringify e), render parsed⟩]) := by
  have hload : loadWord P word w
      = updateDOM P { (fetchWordData P word w).2 with
          wordData := .entry e, currentWord := e.word } := by
    cases ok <;> simp [loadWord, fetchWordData, h]
  obtain ⟨alerts, console, hstate⟩ := fetchWordData_state P word w
  have haudio := (getWordPronunciation_audio P
    { (fetchWordData P word w).2 with wordData := .entry e, currentWord := e.word })
  have hpanel : (loadWord P word w).state.panel
      = [(connectedCallback P ⟨some (P.stringify e), ""⟩).state] := by
    rw [hload]
    cases hq : getWordPronunciation (.entry e) <;>
      simp [updateDOM, readPhonetic, hq, stringifyWordData]
  refine ⟨?_, ?_, ?_, ?_, ?_, hpanel, ?_, ?_, ?_⟩
  · rw [hload]
    simp [updateDOM, readPhonetic]
  · rw [hload]
    cases hq : getWordPronunciation (.entry e) <;> simp [updateDOM, readPhonetic, hq]
  · rw [hload]
    cases hq : getWordPronunciation (.entry e) <;> simp [updateDOM, readPhonetic, hq]
  · rw [hload]
    cases hq : getWordPronunciation (.entry e) <;> simp [updateDOM, readPhonetic, hq]
  · rw [hload]
    cases hq : getWordPronunciation (.entry e) <;> simp [updateDOM, readPhonetic, hq]
  · rw [hload]
    cases hq : getWordPronunciation (.entry e) <;> simp [updateDOM, readPhonetic, hq]
  · rw [hload, haudio, hstate]
  · intro parsed hne hparse
    rw [hpanel]
    simp [connectedCallback, hne, hparse]

/-- The lookup of "hello" on a page that shows an earlier result. -/
theorem loadWord_success_replaces_witness :
    (loadWord samplePlatform "hello" sampleWorld).state.headerWord = "hello"
      ∧ (loadWord samplePlatform "hello" sampleWorld).state.phoneticText = "/h/"
      ∧ (loadWord samplePlatform "hello" sampleWorld).state.panel
          = [⟨some sampleJson, render sampleEntry⟩] := by
  have hfetch : samplePlatform.fetch (API_URL ++ "hello")
      = .response true (some (.entries [sampleEntry])) := by decide
  have h := loadWord_success_replaces samplePlatform "hello" sampleWorld true
    sampleEntry [] hfetch
  refine ⟨h.2.2.2.1, h.2.2.2.2.1, ?_⟩
  exact h.2.2.2.2.2.2.2.2 sampleEntry (by simp [samplePlatform, sampleJson])
    (by simp [samplePlatform])

end FreeDictionary
